import Mathlib

/-!
Verification of the lead-generation scraper (src/app.py).

Strings are modelled as lists of characters (`Str`).  Each Lean definition
is a shallow embedding of the Python function of the same name; external
effects (HTTP fetches, the browser DOM) are passed in as explicit oracle
functions, so that every definition is executable.
-/

namespace LeadGen

abbrev Str := List Char

def str (s : String) : Str := s.data

def strNA : Str := str "N/A"

def lowerStr (s : Str) : Str := s.map Char.toLower

def natStr (n : Nat) : Str := (toString n).data

/-- Boolean substring test: Python `pat in s`. -/
def occursIn (pat : Str) : Str → Bool
  | [] => decide (pat = [])
  | c :: t => pat.isPrefixOf (c :: t) || occursIn pat t

/-- Python `str.isspace` characters relevant to `str.strip()` (ASCII model). -/
def pyIsSpace (c : Char) : Bool :=
  c = ' ' || c = '\t' || c = '\n' || c = '\r' || c = '\x0b' || c = '\x0c'

/-- Python `s.strip()`: drop whitespace on both ends. -/
def pyStrip (s : Str) : Str :=
  ((s.dropWhile pyIsSpace).reverse.dropWhile pyIsSpace).reverse

/-- Python `s.replace(pat, "")`: delete every non-overlapping occurrence of
`pat`, scanning left to right.  `fuel` bounds the recursion; callers pass
`s.length`, which suffices because each step consumes at least one character. -/
def replaceDrop (pat : Str) : Nat → Str → Str
  | 0, s => s
  | fuel + 1, s =>
    if pat ≠ [] ∧ pat.isPrefixOf s then replaceDrop pat fuel (s.drop pat.length)
    else
      match s with
      | [] => []
      | c :: t => c :: replaceDrop pat fuel t

/-! ### The email regex of `extract_emails_from_text`

The pattern is `\b[A-Za-z0-9._%+-]+@[A-Za-z0-9.-]+\.[A-Z|a-z]{2,}\b`
(note: the final class literally contains `|`).  `findEmails` reimplements
`re.findall` for this one pattern: leftmost non-overlapping matches, greedy
quantifiers with backtracking on the domain split and on the final class. -/

def isWordChar (c : Char) : Bool := c.isAlpha || c.isDigit || c = '_'

def isLocalChar (c : Char) : Bool :=
  c.isAlpha || c.isDigit || c = '.' || c = '_' || c = '%' || c = '+' || c = '-'

def isDomainChar (c : Char) : Bool :=
  c.isAlpha || c.isDigit || c = '.' || c = '-'

def isTldChar (c : Char) : Bool := c.isAlpha || c = '|'

/-- Word-boundary test between a last matched character and the next input
character (`none` = end of input). -/
def boundaryAfter (last : Char) (next : Option Char) : Bool :=
  match next with
  | none => isWordChar last
  | some c => isWordChar last != isWordChar c

/-- Backtracking for `[A-Z|a-z]{2,}\b`: try taking `t` characters of the
greedy run `tld` (longest first), requiring a word boundary after them. -/
def tryTldLen (tld rest : Str) : Nat → Option (Str × Str)
  | 0 => none
  | 1 => none
  | t + 2 =>
    let pre := tld.take (t + 2)
    let remaining := tld.drop (t + 2) ++ rest
    if pre.length = t + 2 ∧ boundaryAfter (pre.getLastD 'a') remaining.head? then
      some (pre, remaining)
    else tryTldLen tld rest (t + 1)

/-- Match `\.[A-Z|a-z]{2,}\b` at the front of the input. -/
def matchTail (s : Str) : Option (Str × Str) :=
  match s with
  | '.' :: rest =>
    let tld := rest.takeWhile isTldChar
    let r2 := rest.drop tld.length
    match tryTldLen tld r2 tld.length with
    | some (pre, remaining) => some ('.' :: pre, remaining)
    | none => none
  | _ => none

/-- Backtracking for `[A-Za-z0-9.-]+` before the literal dot: try taking `d`
characters of the greedy run `dom` (longest first). -/
def tryDomLen (dom rest : Str) : Nat → Option (Str × Str)
  | 0 => none
  | d + 1 =>
    if d + 1 ≤ dom.length then
      match matchTail (dom.drop (d + 1) ++ rest) with
      | some (tailPart, remaining) => some (dom.take (d + 1) ++ tailPart, remaining)
      | none => tryDomLen dom rest d
    else tryDomLen dom rest d

/-- Attempt a full match of the email pattern at the head of `s`, where
`prev` is the character just before `s` (`none` at the start of the text). -/
def tryMatch (prev : Option Char) (s : Str) : Option (Str × Str) :=
  match s with
  | [] => none
  | c :: _ =>
    let prevWord := match prev with | none => false | some p => isWordChar p
    if prevWord = isWordChar c then none
    else
      let loc := s.takeWhile isLocalChar
      match s.drop loc.length with
      | '@' :: r2 =>
        if loc = [] then none
        else
          let dom := r2.takeWhile isDomainChar
          let r3 := r2.drop dom.length
          match tryDomLen dom r3 dom.length with
          | some (domPart, remaining) => some (loc ++ '@' :: domPart, remaining)
          | none => none
      | _ => none

/-- Scanner for `re.findall`: try a match at each position, left to right;
on success continue after the match.  `fuel` bounds recursion (text length
suffices: every step consumes at least one character). -/
def scanEmails : Nat → Option Char → Str → List Str
  | 0, _, _ => []
  | _ + 1, _, [] => []
  | fuel + 1, prev, c :: rest =>
    match tryMatch prev (c :: rest) with
    | some (m, remaining) => m :: scanEmails fuel (some (m.getLastD c)) remaining
    | none => scanEmails fuel (some c) rest

def findEmails (text : Str) : List Str := scanEmails text.length none text

/-- The denylist `fake_patterns` of `extract_emails_from_text`. -/
def fake_patterns : List Str :=
  [str "example.com", str "domain.com", str "test.com", str "sample.com",
   str "yoursite.com", str "yourdomain.com", str "email.com", str "mail.com",
   str "image", str "sentry", str "wixpress", str "placeholder", str "dummy",
   str "fake"]

/-- One step of the validation loop of `extract_emails_from_text`: drop a
match that contains a denylist term (substring of the lowercased address),
then append it if it is new and shorter than 100 characters. -/
def emailStep (acc : List Str) (email : Str) : List Str :=
  if fake_patterns.any (fun fake => occursIn fake (lowerStr email)) then acc
  else if email ∉ acc ∧ email.length < 100 then acc ++ [email]
  else acc

/-- Embedding of `extract_emails_from_text` (src/app.py lines 137-159). -/
def extract_emails_from_text (text : Str) : List Str :=
  (findEmails text).foldl emailStep []

/-! ### URL resolution

Model of `urllib.parse.urljoin` for the URL shapes this program constructs:
absolute references, scheme-relative (`//host/...`), root-relative (`/...`),
`mailto:`/`tel:` references, and simple relative paths. -/

/-- Scheme name of an absolute URL, for example `https`. -/
def schemeOf (u : Str) : Str := u.takeWhile (fun c => c ≠ ':')

/-- Scheme plus authority of an absolute URL, for example `https://biz.org`. -/
def schemeAuth (u : Str) : Str :=
  let s := schemeOf u
  let afterScheme := (u.drop (s.length + 3))
  s ++ str "://" ++ afterScheme.takeWhile (fun c => c ≠ '/')

/-- The base URL up to and including the last slash of its path component. -/
def baseDir (u : Str) : Str :=
  let sa := schemeAuth u
  let path := u.drop sa.length
  if path.any (fun c => c = '/') then
    sa ++ (path.reverse.dropWhile (fun c => c ≠ '/')).reverse
  else sa ++ str "/"

def urljoin (base href : Str) : Str :=
  if occursIn (str "://") href then href
  else if (str "mailto:").isPrefixOf (lowerStr href)
          ∨ (str "tel:").isPrefixOf (lowerStr href) then href
  else if (str "//").isPrefixOf href then schemeOf base ++ str ":" ++ href
  else if (str "/").isPrefixOf href then schemeAuth base ++ href
  else baseDir base ++ href

/-! ### Social-media link extraction -/

/-- An `<a href=...>` element as read from the parsed page: its target and
its visible text. -/
structure Anchor where
  href : Str
  text : Str
deriving DecidableEq

/-- The platform table of `extract_social_media_links`, in the insertion
order of the Python dict. -/
def social_platforms : List (Str × List Str) :=
  [(str "facebook", [str "facebook.com", str "fb.com"]),
   (str "instagram", [str "instagram.com"]),
   (str "twitter", [str "twitter.com", str "x.com"]),
   (str "linkedin", [str "linkedin.com"]),
   (str "youtube", [str "youtube.com"])]

/-- Check of one platform row against the current link state (recorded
platforms so far, current href): skip a platform already recorded; on a
domain match, strip the query string (the stripped value persists for the
remaining platform checks of this link) and record the platform. -/
def socialStep (st : List (Str × Str) × Str) (pd : Str × List Str) :
    List (Str × Str) × Str :=
  if pd.1 ∈ st.1.map Prod.fst then st
  else if pd.2.any (fun d => occursIn d (lowerStr st.2)) then
    let h := if st.2.any (fun c => c = '?') then st.2.takeWhile (fun c => c ≠ '?')
             else st.2
    (st.1 ++ [(pd.1, h)], h)
  else st

/-- Processing of a single anchor target by `extract_social_media_links`:
resolve a root-relative target, then check every platform in table order. -/
def processLink (base : Str) (found : List (Str × Str)) (href0 : Str) :
    List (Str × Str) :=
  let href1 := if href0.head? = some '/' then urljoin base href0 else href0
  (social_platforms.foldl socialStep (found, href1)).1

/-- Embedding of `extract_social_media_links` (src/app.py lines 161-197).
The platform-to-URL dict is modelled as an association list in insertion
order. -/
def extract_social_media_links (anchors : List Anchor) (base_url : Str) :
    List (Str × Str) :=
  anchors.foldl (fun found a => processLink base_url found a.href) []

/-! ### The enrichment fetcher `scrape_website_for_contact_info`

The HTTP layer is an oracle `fetch : url → timeout → FetchResult`; a parsed
page is reduced to what the code reads from the soup: its extracted text
and its anchors. -/

/-- What the code reads from a parsed HTML page: `soup.get_text()` and the
`<a href=...>` elements. -/
structure Page where
  pageText : Str
  anchors : List Anchor

/-- Result of one `requests.get`: a response (status, content type, parsed
page), a timeout, or a connection failure. -/
inductive FetchResult where
  | success (status : Nat) (contentType : Str) (page : Page)
  | timeout
  | connError

/-- The transient result value of `scrape_website_for_contact_info`. -/
structure ContactInfo where
  emails : List Str
  social_media : List (Str × Str)
  error : Option Str
deriving DecidableEq

/-- Case-insensitive test for the `^mailto:` pattern used with `find_all`. -/
def isMailtoHref (h : Str) : Bool := (str "mailto:").isPrefixOf (lowerStr h)

/-- Address recovered from a mailto anchor:
`href.replace("mailto:", "").split("?")[0].strip()`. -/
def mailtoEmail (h : Str) : Str :=
  pyStrip ((replaceDrop (str "mailto:") h.length h).takeWhile (fun c => c ≠ '?'))

/-- Homepage email set: regex extraction over the page text, then mailto
targets appended when nonempty, new, and containing `@`. -/
def homepageEmails (p : Page) : List Str :=
  (p.anchors.filter (fun a => isMailtoHref a.href)).foldl
    (fun es a =>
      let email := mailtoEmail a.href
      if email ≠ [] ∧ email ∉ es ∧ email.any (fun c => c = '@') then es ++ [email]
      else es)
    (extract_emails_from_text p.pageText)

/-- Contact-page email set: same as the homepage pass except that the code
omits the `@` membership test on mailto targets. -/
def contactPageEmails (p : Page) : List Str :=
  (p.anchors.filter (fun a => isMailtoHref a.href)).foldl
    (fun es a =>
      let email := mailtoEmail a.href
      if email ≠ [] ∧ email ∉ es then es ++ [email]
      else es)
    (extract_emails_from_text p.pageText)

/-- Candidate contact/about pages: anchors whose lowercased target or
visible text contains `contact` or `about`, resolved against the page URL,
deduplicated, at most two collected. -/
def contactCandidates (anchors : List Anchor) (base : Str) : List Str :=
  anchors.foldl
    (fun acc a =>
      if occursIn (str "contact") (lowerStr a.href)
          ∨ occursIn (str "contact") (lowerStr a.text)
          ∨ occursIn (str "about") (lowerStr a.href)
          ∨ occursIn (str "about") (lowerStr a.text) then
        let full := urljoin base a.href
        if full ∉ acc ∧ acc.length < 2 then acc ++ [full] else acc
      else acc)
    []

/-- Scheme normalization: prepend `https://` when no scheme is present. -/
def normalizeScheme (u : Str) : Str :=
  if (str "http://").isPrefixOf u ∨ (str "https://").isPrefixOf u then u
  else str "https://" ++ u

/-- Final result assembly: the error field is set exactly when both the
email list and the social map are empty. -/
def finalizeContact (emails : List Str) (social : List (Str × Str)) : ContactInfo :=
  { emails := emails, social_media := social,
    error := if emails = [] ∧ social = [] then some (str "No contact info found")
             else none }

/-- The email set after the contact-page fallback fetch: when the fetch of
candidate `c` (with the shorter 5-second timeout) returns a response, the
candidate page's email set replaces the empty homepage set; a timeout or
connection failure is swallowed and the homepage set is kept. -/
def fallbackEmails (fetch : Str → Nat → FetchResult) (c : Str)
    (emails0 : List Str) : List Str :=
  match fetch c 5 with
  | .success _ _ page2 => (contactPageEmails page2).take 3
  | _ => emails0

/-- Main-page success path: extract emails (truncated to three) and social
links; when no email was found, fetch at most the first contact/about
candidate with the shorter 5-second timeout and, when that fetch returns a
response, replace the email set with the candidate page's result.  The
second component records every fetch performed, with its timeout. -/
def mainSuccess (fetch : Str → Nat → FetchResult) (nu : Str) (timeout : Nat)
    (page : Page) : ContactInfo × List (Str × Nat) :=
  let emails0 := (homepageEmails page).take 3
  let social := extract_social_media_links page.anchors nu
  if emails0 = [] then
    match contactCandidates page.anchors nu with
    | [] => (finalizeContact emails0 social, [(nu, timeout)])
    | c :: _ =>
      (finalizeContact (fallbackEmails fetch c emails0) social,
       [(nu, timeout), (c, 5)])
  else (finalizeContact emails0 social, [(nu, timeout)])

/-- Response validation of the main fetch: `raise_for_status` (4xx/5xx),
the content-type gate, and the near-empty-text gate. -/
def handleSuccess (fetch : Str → Nat → FetchResult) (nu : Str) (timeout : Nat)
    (st : Nat) (ct : Str) (page : Page) : ContactInfo × List (Str × Nat) :=
  if 400 ≤ st ∧ st < 600 then
    ({ emails := [], social_media := [],
       error := some (str "HTTP " ++ natStr st) }, [(nu, timeout)])
  else if occursIn (str "text/html") (lowerStr ct) = false then
    ({ emails := [], social_media := [],
       error := some (str "Non-HTML: " ++ ct) }, [(nu, timeout)])
  else if page.pageText.length < 100 then
    ({ emails := [], social_media := [],
       error := some (str "Empty content") }, [(nu, timeout)])
  else mainSuccess fetch nu timeout page

/-- Dispatch on the outcome of the main fetch; timeouts and connection
failures become short diagnostic strings. -/
def handleFetch (fetch : Str → Nat → FetchResult) (nu : Str) (timeout : Nat) :
    FetchResult → ContactInfo × List (Str × Nat)
  | .timeout =>
    ({ emails := [], social_media := [],
       error := some (str "Timeout (" ++ natStr timeout ++ str "s)") },
     [(nu, timeout)])
  | .connError =>
    ({ emails := [], social_media := [],
       error := some (str "Connection failed") }, [(nu, timeout)])
  | .success st ct page => handleSuccess fetch nu timeout st ct page

/-- Embedding of `scrape_website_for_contact_info` (src/app.py lines
199-314), instrumented with the list of fetches performed (URL and timeout
of each `requests.get`). -/
def scrape_website_traced (fetch : Str → Nat → FetchResult) (website_url : Str)
    (timeout : Nat) : ContactInfo × List (Str × Nat) :=
  if website_url = [] ∨ website_url = strNA then
    ({ emails := [], social_media := [], error := some (str "No website URL") }, [])
  else
    let nu := normalizeScheme website_url
    handleFetch fetch nu timeout (fetch nu timeout)

/-- The result of `scrape_website_for_contact_info` itself. -/
def scrape_website_for_contact_info (fetch : Str → Nat → FetchResult)
    (website_url : Str) (timeout : Nat) : ContactInfo :=
  (scrape_website_traced fetch website_url timeout).1

/-! ### The scroll controller `scroll_results_panel`

The successive `scrollHeight` reads are an oracle `hts : Nat → Nat`:
`hts 0` is the read taken before the loop, `hts i` the read of the i-th
loop iteration.  The loop body never fails in this pure model, so the
`except` branch of the Python loop is unreachable. -/

/-- Loop of `scroll_results_panel`: `fuel` is the remaining iteration
budget (`max_scrolls - scroll_count`), `sc` the scroll counter, `last` the
last height, `nc` the consecutive-unchanged counter, `r` the next read
index.  The early break on the third unchanged read returns `sc` without
the final increment, exactly as the Python `break` precedes
`scroll_count += 1`. -/
def scrollAux (hts : Nat → Nat) : Nat → Nat → Nat → Nat → Nat → Nat
  | 0, sc, _, _, _ => sc
  | fuel + 1, sc, last, nc, r =>
    if hts r = last then
      if nc + 1 ≥ 3 then sc
      else scrollAux hts fuel (sc + 1) last (nc + 1) (r + 1)
    else scrollAux hts fuel (sc + 1) (hts r) 0 (r + 1)

/-- Embedding of `scroll_results_panel` (src/app.py lines 409-435). -/
def scroll_results_panel (hts : Nat → Nat) (max_scrolls : Nat) : Nat :=
  scrollAux hts max_scrolls 0 (hts 0) 0 1

/-! ### Per-record field extraction of `scrape_google_maps_real`

The detail panel currently hydrated for one candidate is an oracle
`CandidateDom`: `elemAt` models `find_element` (with the element's text,
aria-label and href), `elemsAt` models `find_elements`. -/

/-- What the code reads from one located element. -/
structure Elem where
  aria_label : Option Str
  href : Option Str
  text : Str
deriving DecidableEq

/-- DOM oracle for a hydrated detail panel. -/
structure CandidateDom where
  elemAt : Str → Option Elem
  elemsAt : Str → List Elem

/-- The attributes the code reads through `get_attribute`. -/
def getAttr (e : Elem) (attr : Str) : Option Str :=
  if attr = str "aria-label" then e.aria_label
  else if attr = str "href" then e.href
  else none

/-- Embedding of `extract_text_safe` without the attribute argument. -/
def extract_text_safe (dom : CandidateDom) (xpath : Str) : Str :=
  match dom.elemAt xpath with
  | some e => if e.text ≠ [] then e.text else strNA
  | none => strNA

/-- Embedding of `extract_text_safe` with an attribute argument. -/
def extract_text_safe_attr (dom : CandidateDom) (xpath attr : Str) : Str :=
  match dom.elemAt xpath with
  | some e =>
    match getAttr e attr with
    | some v => if v ≠ [] then v else strNA
    | none => strNA
  | none => strNA

/-- Search for the phone regex `[\+\d][\d\s\-\(\)\.]{7,}`: first position
with a valid start character followed by a greedy run of at least seven
body characters. -/
def isPhoneStart (c : Char) : Bool := c = '+' || c.isDigit

def isPhoneBody (c : Char) : Bool :=
  c.isDigit || pyIsSpace c || c = '-' || c = '(' || c = ')' || c = '.'

def phoneSearch : Str → Option Str
  | [] => none
  | c :: rest =>
    if isPhoneStart c then
      let run := rest.takeWhile isPhoneBody
      if run.length ≥ 7 then some (c :: run) else phoneSearch rest
    else phoneSearch rest

def name_xpaths : List Str :=
  [str "//h1[contains(@class, \x27DUwDvf\x27)]",
   str "//h1[@class=\x27fontHeadlineLarge\x27]",
   str "//div[@role=\x27main\x27]//h1"]

def phone_xpaths : List Str :=
  [str "//button[contains(@data-item-id, \x27phone\x27)]",
   str "//button[contains(@aria-label, \x27Phone\x27)]",
   str "//a[starts-with(@href, \x27tel:\x27)]",
   str "//div[contains(@class, \x27AeaXub\x27)]//button[contains(@class, \x27CsEnBe\x27)]"]

def address_xpaths : List Str :=
  [str "//button[contains(@data-item-id, \x27address\x27)]",
   str "//button[contains(@aria-label, \x27Address\x27)]",
   str "//div[contains(@class, \x27Io6YTe\x27)]"]

def website_xpaths : List Str :=
  [str "//a[contains(@data-item-id, \x27authority\x27)]",
   str "//a[contains(@aria-label, \x27Website\x27)]",
   str "//a[contains(@class, \x27CsEnBe\x27) and contains(@href, \x27http\x27)]"]

def category_xpaths : List Str :=
  [str "//button[contains(@class, \x27DkEaL\x27)]",
   str "//button[@jsaction=\x27pane.rating.category\x27]"]

def ratingXpath : Str :=
  str "//div[contains(@class, \x27F7nice\x27)]//span[@aria-hidden=\x27true\x27]"

def reviewsXpath : Str :=
  str "//div[contains(@class, \x27F7nice\x27)]//span[@aria-label]"

/-- One element of a phone locator's hit list: aria-label regex search,
then `tel:` href, then element-text regex search. -/
def tryPhoneElem (e : Elem) : Option Str :=
  let fromAria :=
    match e.aria_label with
    | some al => if al ≠ [] then (phoneSearch al).map pyStrip else none
    | none => none
  match fromAria with
  | some p => some p
  | none =>
    let fromHref :=
      match e.href with
      | some h =>
        if h ≠ [] ∧ (str "tel:").isPrefixOf h then
          some (pyStrip (replaceDrop (str "tel:") h.length h))
        else none
      | none => none
    match fromHref with
    | some p => some p
    | none => if e.text ≠ [] then (phoneSearch e.text).map pyStrip else none

/-- Embedding of `extract_phone_number` (src/app.py lines 332-363). -/
def extract_phone_number (dom : CandidateDom) : Str :=
  (phone_xpaths.findSome? (fun xp => (dom.elemsAt xp).findSome? tryPhoneElem)).getD
    strNA

/-- One element of an address locator: an aria-label wins (split at the
first colon when present), else nonempty text. -/
def addrFromElem (e : Elem) : Option Str :=
  match e.aria_label with
  | some al =>
    if al ≠ [] then
      if al.any (fun c => c = ':') then
        some (pyStrip ((al.dropWhile (fun c => c ≠ ':')).drop 1))
      else some (pyStrip al)
    else if e.text ≠ [] then some (pyStrip e.text) else none
  | none => if e.text ≠ [] then some (pyStrip e.text) else none

/-- Embedding of `extract_address` (src/app.py lines 365-388). -/
def extract_address (dom : CandidateDom) : Str :=
  (address_xpaths.findSome? (fun xp => (dom.elemAt xp).bind addrFromElem)).getD strNA

/-- Embedding of `extract_website` (src/app.py lines 390-407): the first
located anchor with a nonempty href not containing `google.com`. -/
def extract_website (dom : CandidateDom) : Str :=
  (website_xpaths.findSome?
    (fun xp => (dom.elemAt xp).bind
      (fun e =>
        match e.href with
        | some h =>
          if h ≠ [] ∧ occursIn (str "google.com") h = false then some h else none
        | none => none))).getD strNA

/-- The name fallback chain: first locator whose safe text is not `N/A`. -/
def nameChain (dom : CandidateDom) : Str :=
  (name_xpaths.findSome?
    (fun xp =>
      let n := extract_text_safe dom xp
      if n = strNA then none else some n)).getD strNA

/-- The category fallback chain; the initial value, kept when every locator
fails, is the search keyword. -/
def categoryChain (keyword : Str) (dom : CandidateDom) : Str :=
  (category_xpaths.findSome?
    (fun xp =>
      let c := extract_text_safe dom xp
      if c = strNA then none else some c)).getD keyword

def ratingField (dom : CandidateDom) : Str :=
  extract_text_safe dom ratingXpath

/-- Review count: aria-label of the reviews span, post-processed by taking
the first whitespace token and deleting commas when the label mentions
`reviews`. -/
def reviewsField (dom : CandidateDom) : Str :=
  let r := extract_text_safe_attr dom reviewsXpath (str "aria-label")
  if r ≠ strNA ∧ occursIn (str "reviews") r then
    ((r.dropWhile pyIsSpace).takeWhile (fun c => pyIsSpace c = false)).filter
      (fun c => c ≠ ',')
  else r

/-- One extracted business record (the dict built at src/app.py 622-632). -/
structure Business where
  name : Str
  email : Str
  phone : Str
  address : Str
  category : Str
  website : Str
  social : Str
  rating : Str
  reviews : Str
deriving DecidableEq

/-- Field extraction for one hydrated candidate: `none` exactly when every
name locator fails (the record is then discarded); all other fields come
from their own fallback chains. -/
def extractFields (keyword : Str) (dom : CandidateDom) : Option Business :=
  let name := nameChain dom
  if name = strNA then none
  else
    some { name := name, email := strNA,
           phone := extract_phone_number dom,
           address := extract_address dom,
           category := categoryChain keyword dom,
           website := extract_website dom,
           social := strNA,
           rating := ratingField dom,
           reviews := reviewsField dom }

/-- One candidate of the record-extraction loop: either its detail panel
hydrates and extraction runs over the given DOM (with a flag telling
whether the per-record progress-callback invocation raises), or the
iteration raises a stale-element error, or some other exception. -/
inductive Candidate where
  | fine (dom : CandidateDom) (cbRaises : Bool)
  | stale
  | raises

/-- One iteration of the loop at src/app.py lines 575-647 over the state
(businesses, google_maps_errors).  A successful extraction appends the
record and, when the progress callback then raises, the exception handler
additionally increments the error counter; a candidate with no name, a
stale reference, or any other exception only increments the error
counter. -/
def candStep (keyword : Str) :
    List Business × Nat → Candidate → List Business × Nat
  | (bs, errs), .fine dom cb =>
    match extractFields keyword dom with
    | some b => if cb then (bs ++ [b], errs + 1) else (bs ++ [b], errs)
    | none => (bs, errs + 1)
  | (bs, errs), .stale => (bs, errs + 1)
  | (bs, errs), .raises => (bs, errs + 1)

/-- The record-extraction loop: final businesses list (its length is
`successfully_extracted`) and the `google_maps_errors` counter. -/
def recordLoop (keyword : Str) (cands : List Candidate) : List Business × Nat :=
  cands.foldl (candStep keyword) ([], 0)

/-! ### Run-level control flow and cleanup of `scrape_google_maps_real` -/

/-- A browser-automation session; `driver.quit` closes it. -/
structure Session where
  isOpen : Bool
deriving DecidableEq

/-- Modelled from the spec: the session-release routine of the external
automation library (`driver.quit`), whose contract (section 4.1) is that
release is idempotent.  Quitting an already-closed session is a no-op. -/
def driverQuit (_ : Session) : Session := { isOpen := false }

/-- Environment oracle selecting the exit path of one run: whether driver
initialization succeeds, whether the page load, panel search and link
collection succeed, the candidate outcomes, and whether `driver.quit`
itself raises. -/
structure GMEnv where
  driverInitOk : Bool
  pageLoadOk : Bool
  panelFound : Bool
  linksFound : Bool
  candidates : List Candidate
  keyword : Str
  criticalExn : Bool
  quitRaises : Bool

/-- The tuple returned by `scrape_google_maps_real` (records, error,
and the stats the claims mention). -/
structure GMResult where
  businesses : List Business
  error : Option Str
  total_found : Nat
  successfully_extracted : Nat
  google_maps_errors : Nat
deriving DecidableEq

/-- Body of the `try` block once a driver is acquired, by exit path:
an unexpected fault, a page-load failure, a missing results panel, no
candidate links, or the record-extraction loop.  (The enrichment stage
never raises, see `scrape_website_for_contact_info`, and does not affect
cleanup, so it is not distinguished here.) -/
def gmBody (env : GMEnv) : GMResult :=
  if env.criticalExn then
    { businesses := [], error := some (str "Critical error"),
      total_found := 0, successfully_extracted := 0, google_maps_errors := 0 }
  else if env.pageLoadOk = false then
    { businesses := [], error := some (str "Google Maps page load timeout."),
      total_found := 0, successfully_extracted := 0, google_maps_errors := 0 }
  else if env.panelFound = false then
    { businesses := [], error := some (str "Could not find results"),
      total_found := 0, successfully_extracted := 0, google_maps_errors := 0 }
  else if env.linksFound = false then
    { businesses := [], error := some (str "No businesses found"),
      total_found := 0, successfully_extracted := 0, google_maps_errors := 0 }
  else
    let r := recordLoop env.keyword env.candidates
    { businesses := r.1,
      error := if r.1 = [] then some (str "Extracted 0 businesses") else none,
      total_found := env.candidates.length,
      successfully_extracted := r.1.length,
      google_maps_errors := r.2 }

/-- Embedding of the run-level shape of `scrape_google_maps_real`
(src/app.py lines 441-708): the returned result, the number of
`driver.quit` invocations performed by the `finally` block, and the log
line the block emits.  When no driver was acquired the block skips the
quit; when `driver.quit` raises, the exception is caught and only a
warning is logged, leaving the result untouched. -/
def scrape_google_maps_model (env : GMEnv) : GMResult × Nat × List Str :=
  if env.driverInitOk then
    (gmBody env, 1,
     if env.quitRaises then [str "Error closing driver"]
     else [str "Chrome driver closed successfully"])
  else
    ({ businesses := [], error := some (str "Failed to initialize Chrome driver."),
       total_found := 0, successfully_extracted := 0, google_maps_errors := 0 },
     0, [])

/-- A candidate with its progress-callback invocation well behaved. -/
def cbSafe : Candidate → Bool
  | .fine _ cb => !cb
  | .stale => true
  | .raises => true

/-! ### Concrete fixtures used by witnesses and counterexamples -/

/-- Height-read oracle of the spec's scroll example: the listed reads
`[100, 200, 200, 200, 300, 300, 300]`, after which the content height
stays at its final value 300. -/
def heightsC2 : Nat → Nat := fun i => [100, 200, 200, 200, 300, 300, 300].getD i 300

/-- Two Facebook links (the first with a query string) and one
root-relative link resolving to a URL that matches Instagram. -/
def c4anchors : List Anchor :=
  [⟨str "https://facebook.com/first?ref=x", str "FB"⟩,
   ⟨str "https://facebook.com/second", str "FB2"⟩,
   ⟨str "/instagram.com/biz", str "IG"⟩]

/-- An element carrying only the business name text. -/
def okElem : Elem := { aria_label := none, href := none, text := str "Biz" }

/-- A detail panel where only the first name locator succeeds. -/
def okDom : CandidateDom :=
  { elemAt := fun xp =>
      if xp = str "//h1[contains(@class, \x27DUwDvf\x27)]" then some okElem else none,
    elemsAt := fun _ => [] }

/-- A detail panel where every locator fails. -/
def noDom : CandidateDom := { elemAt := fun _ => none, elemsAt := fun _ => [] }

/-- The record extracted from `okDom` under the keyword `Cafe`. -/
def okBizCafe : Business :=
  { name := str "Biz", email := strNA, phone := strNA, address := strNA,
    category := str "Cafe", website := strNA, social := strNA,
    rating := strNA, reviews := strNA }

/-- A homepage with enough text, no email anywhere, and a contact link. -/
def c3home : Page :=
  { pageText := List.replicate 120 'x',
    anchors := [⟨str "/contact", str "Contact Us"⟩] }

/-- The contact page: no email in the text, one mailto anchor. -/
def c3contact : Page :=
  { pageText := List.replicate 150 'y',
    anchors := [⟨str "mailto:hello@biz.org", str "Email"⟩] }

/-- Network oracle for the fallback example: the homepage and its contact
page respond, everything else times out. -/
def c3fetch : Str → Nat → FetchResult := fun u _ =>
  if u = str "https://biz.org" then .success 200 (str "text/html") c3home
  else if u = str "https://biz.org/contact" then .success 200 (str "text/html") c3contact
  else .timeout

/-- A page used by failure-mode fixtures; its content never matters. -/
def blankPage : Page := { pageText := [], anchors := [] }

def fetchAlwaysTimeout : Str → Nat → FetchResult := fun _ _ => .timeout

def fetchAlwaysConnError : Str → Nat → FetchResult := fun _ _ => .connError

def fetchAlways500 : Str → Nat → FetchResult := fun _ _ =>
  .success 500 (str "text/html") blankPage

def fetchAlwaysPdf : Str → Nat → FetchResult := fun _ _ =>
  .success 200 (str "application/pdf") blankPage

def fetchAlwaysShort : Str → Nat → FetchResult := fun _ _ =>
  .success 200 (str "text/html") blankPage

/-- A page whose text is long enough and contains one real address. -/
def page304 : Page :=
  { pageText := str "Welcome to Real Biz. " ++ List.replicate 90 'z'
      ++ str " write to info@realbiz.org today",
    anchors := [] }

/-- A response with the non-2xx status 304 (not modified), which
`raise_for_status` does not treat as an error. -/
def fetch304 : Str → Nat → FetchResult := fun _ _ =>
  .success 304 (str "text/html") page304

/-- A run in which the driver initializes and everything succeeds. -/
def envAcquired : GMEnv :=
  { driverInitOk := true, pageLoadOk := true, panelFound := true,
    linksFound := true, candidates := [.fine okDom false], keyword := str "Cafe",
    criticalExn := false, quitRaises := false }

/-- A run in which driver initialization fails. -/
def envNoDriver : GMEnv :=
  { driverInitOk := false, pageLoadOk := true, panelFound := true,
    linksFound := true, candidates := [], keyword := str "Cafe",
    criticalExn := false, quitRaises := false }

/-! ## Theorems -/

/-- Invariant of the validation loop of `extract_emails_from_text`: the
accumulator stays duplicate-free, and every entry is denylist-clean and
shorter than 100 characters. -/
theorem emailStep_foldl_inv (l : List Str) :
    ∀ acc : List Str, acc.Nodup →
    (∀ e ∈ acc,
      fake_patterns.any (fun fake => occursIn fake (lowerStr e)) = false ∧
      e.length < 100) →
    (l.foldl emailStep acc).Nodup ∧
    ∀ e ∈ l.foldl emailStep acc,
      fake_patterns.any (fun fake => occursIn fake (lowerStr e)) = false ∧
      e.length < 100 := by
  induction l with
  | nil => intro acc h1 h2; exact ⟨h1, h2⟩
  | cons x xs ih =>
    intro acc h1 h2
    rw [List.foldl_cons]
    have key : (emailStep acc x).Nodup ∧
        ∀ e ∈ emailStep acc x,
          fake_patterns.any (fun fake => occursIn fake (lowerStr e)) = false ∧
          e.length < 100 := by
      unfold emailStep
      split_ifs with hf hm
      · exact ⟨h1, h2⟩
      · constructor
        · rw [List.nodup_append]
          refine ⟨h1, List.nodup_singleton x, ?_⟩
          intro a ha hb
          rw [List.mem_singleton] at hb
          subst hb
          exact hm.1 ha
        · intro e he
          rcases List.mem_append.1 he with h | h
          · exact h2 e h
          · rw [List.mem_singleton] at h
            subst h
            exact ⟨by simpa using hf, hm.2⟩
      · exact ⟨h1, h2⟩
    exact ih (emailStep acc x) key.1 key.2

/-- C1 as stated is false: `extract_emails_from_text` performs no
truncation of its result to three entries (the `[:3]` truncation happens
at its call sites).  A text carrying four distinct valid addresses yields
four entries. -/
theorem C1_counterexample :
    ¬ (extract_emails_from_text
         (str "a@aaa.org b@bbb.org c@ccc.org d@ddd.org")).length ≤ 3 := by
  decide

/-- C1, amended: for every input text, `extract_emails_from_text` returns
a sequence with no duplicate entries, each shorter than 100 characters,
containing no entry in which a denylist term occurs (hence none whose
domain matches the denylist); the truncation to at most three entries is
performed by the caller, not by this function. -/
theorem C1_amended_email_invariants (text : Str) :
    (extract_emails_from_text text).Nodup ∧
    ∀ e ∈ extract_emails_from_text text,
      fake_patterns.any (fun fake => occursIn fake (lowerStr e)) = false ∧
      e.length < 100 := by
  have h := emailStep_foldl_inv (findEmails text) [] (List.nodup_nil) (by simp)
  simpa [extract_emails_from_text] using h

/-- Witness for `C1_amended_email_invariants` at a concrete text. -/
theorem C1_amended_email_invariants_witness :
    (extract_emails_from_text (str "write info@realbiz.com")).Nodup ∧
    (fake_patterns.any
      (fun fake => occursIn fake (lowerStr (str "info@realbiz.com"))) = false ∧
      (str "info@realbiz.com").length < 100) :=
  ⟨(C1_amended_email_invariants (str "write info@realbiz.com")).1,
   (C1_amended_email_invariants (str "write info@realbiz.com")).2
     (str "info@realbiz.com") (by decide)⟩

/-- C10: the denylist is applied as a substring test over the whole
lowercased address, so no returned entry ever contains `mail.com`; in
particular `mail.com` is a denylist entry, and addresses at `gmail.com`
or `hotmail.com` are never returned. -/
theorem C10_denylist_substring :
    (∀ (text : Str), ∀ e ∈ extract_emails_from_text text,
       occursIn (str "mail.com") (lowerStr e) = false) ∧
    str "mail.com" ∈ fake_patterns ∧
    extract_emails_from_text
      (str "reach john@gmail.com or sue@hotmail.com today") = [] := by
  refine ⟨?_, by decide, by decide⟩
  intro text e he
  have h := ((emailStep_foldl_inv (findEmails text) [] (List.nodup_nil)
      (by simp)).2 e (by simpa [extract_emails_from_text] using he)).1
  have h2 := List.any_eq_false.mp h (str "mail.com") (by decide)
  simpa using h2

/-- Witness for `C10_denylist_substring` at a concrete text and entry. -/
theorem C10_denylist_substring_witness :
    occursIn (str "mail.com")
      (lowerStr (str "info@realbiz.com")) = false :=
  C10_denylist_substring.1 (str "write info@realbiz.com")
    (str "info@realbiz.com") (by decide)

/-- The scroll counter never exceeds the remaining iteration budget. -/
theorem scrollAux_le (hts : Nat → Nat) :
    ∀ fuel sc last nc r, scrollAux hts fuel sc last nc r ≤ sc + fuel := by
  intro fuel
  induction fuel with
  | zero => intro sc last nc r; simp [scrollAux]
  | succ n ih =>
    intro sc last nc r
    rw [scrollAux]
    split_ifs with h1 h2
    · omega
    · have := ih (sc + 1) last (nc + 1) (r + 1); omega
    · have := ih (sc + 1) (hts r) 0 (r + 1); omega

/-- C2: the scroll controller never exceeds the hard cap; with a height
that never changes it stops early after the third consecutive unchanged
read; and on the spec's height-read sequence (stabilizing at 300) with
cap 8 it returns the scroll count 6 — the break on the third consecutive
unchanged read precedes the final increment — rather than running to the
hard cap. -/
theorem C2_scroll_convergence :
    (∀ (hts : Nat → Nat) (m : Nat), scroll_results_panel hts m ≤ m) ∧
    (∀ (c m : Nat), 3 ≤ m → scroll_results_panel (fun _ => c) m = 2) ∧
    scroll_results_panel heightsC2 8 = 6 ∧
    scroll_results_panel heightsC2 8 < 8 := by
  refine ⟨?_, ?_, by decide, by decide⟩
  · intro hts m
    simpa using scrollAux_le hts m 0 (hts 0) 0 1
  · intro c m hm
    obtain ⟨k, rfl⟩ : ∃ k, m = k + 1 + 1 + 1 := ⟨m - 3, by omega⟩
    show scrollAux (fun _ => c) (k + 1 + 1 + 1) 0 c 0 1 = 2
    simp [scrollAux]

/-- Witness for `C2_scroll_convergence` with a constant height and cap 8. -/
theorem C2_scroll_convergence_witness :
    scroll_results_panel (fun _ => 5) 8 = 2 ∧ scroll_results_panel heightsC2 8 ≤ 8 :=
  ⟨C2_scroll_convergence.2.1 5 8 (by decide),
   C2_scroll_convergence.1 heightsC2 8⟩

/-- Invariant of the platform scan for one link: platform keys stay
duplicate-free and recorded URLs never contain a question mark. -/
theorem socialFold_inv (plats : List (Str × List Str)) :
    ∀ st : List (Str × Str) × Str,
    (st.1.map Prod.fst).Nodup →
    (∀ p ∈ st.1, p.2.any (fun c => c = '?') = false) →
    (((plats.foldl socialStep st).1.map Prod.fst).Nodup ∧
     ∀ p ∈ (plats.foldl socialStep st).1, p.2.any (fun c => c = '?') = false) := by
  induction plats with
  | nil => intro st h1 h2; exact ⟨h1, h2⟩
  | cons pd ps ih =>
    intro st h1 h2
    rw [List.foldl_cons]
    have key : ((socialStep st pd).1.map Prod.fst).Nodup ∧
        ∀ p ∈ (socialStep st pd).1, p.2.any (fun c => c = '?') = false := by
      unfold socialStep
      split_ifs with hmem hmatch hq
      · exact ⟨h1, h2⟩
      · constructor
        · rw [List.map_append, List.nodup_append]
          refine ⟨h1, by simp, ?_⟩
          intro a ha hb
          simp only [List.map_cons, List.map_nil, List.mem_singleton] at hb
          subst hb
          exact hmem ha
        · intro p hp
          rcases List.mem_append.1 hp with hmem2 | hmem2
          · exact h2 p hmem2
          · rw [List.mem_singleton] at hmem2
            subst hmem2
            rw [List.any_eq_false]
            intro c hc
            have := List.mem_takeWhile_imp hc
            simpa using this
      · constructor
        · rw [List.map_append, List.nodup_append]
          refine ⟨h1, by simp, ?_⟩
          intro a ha hb
          simp only [List.map_cons, List.map_nil, List.mem_singleton] at hb
          subst hb
          exact hmem ha
        · intro p hp
          rcases List.mem_append.1 hp with hmem2 | hmem2
          · exact h2 p hmem2
          · rw [List.mem_singleton] at hmem2
            subst hmem2
            have hq2 : '?' ∉ st.2 := by simpa using hq
            rw [List.any_eq_false]
            intro x hx hxq
            have hxe : x = '?' := by simpa using hxq
            exact hq2 (hxe ▸ hx)
      · exact ⟨h1, h2⟩
    exact ih (socialStep st pd) key.1 key.2

/-- Invariant of the anchor scan of `extract_social_media_links`. -/
theorem anchorsFold_inv (base : Str) (anchors : List Anchor) :
    ∀ found : List (Str × Str),
    (found.map Prod.fst).Nodup →
    (∀ p ∈ found, p.2.any (fun c => c = '?') = false) →
    (((anchors.foldl (fun f a => processLink base f a.href) found).map
        Prod.fst).Nodup ∧
     ∀ p ∈ anchors.foldl (fun f a => processLink base f a.href) found,
       p.2.any (fun c => c = '?') = false) := by
  induction anchors with
  | nil => intro found h1 h2; exact ⟨h1, h2⟩
  | cons a as ih =>
    intro found h1 h2
    rw [List.foldl_cons]
    have key := socialFold_inv social_platforms
      (found, if a.href.head? = some '/' then urljoin base a.href else a.href) h1 h2
    exact ih (processLink base found a.href)
      (by simpa [processLink] using key.1)
      (by simpa [processLink] using key.2)

/-- C4: `extract_social_media_links` records at most one link per platform
(first occurrence wins), strips query strings from recorded links, and
resolves root-relative targets against the base URL; on two Facebook links
and one Instagram link the result has exactly the two expected entries,
keeping the first Facebook link. -/
theorem C4_social_first_match :
    (∀ (anchors : List Anchor) (base : Str),
       ((extract_social_media_links anchors base).map Prod.fst).Nodup) ∧
    (∀ (anchors : List Anchor) (base : Str),
       ∀ p ∈ extract_social_media_links anchors base,
         p.2.any (fun c => c = '?') = false) ∧
    extract_social_media_links c4anchors (str "https://biz.org") =
      [(str "facebook", str "https://facebook.com/first"),
       (str "instagram", str "https://biz.org/instagram.com/biz")] := by
  refine ⟨?_, ?_, by decide⟩
  · intro anchors base
    exact (anchorsFold_inv base anchors [] (by simp) (by simp)).1
  · intro anchors base
    exact (anchorsFold_inv base anchors [] (by simp) (by simp)).2

/-- Witness for `C4_social_first_match` at a concrete recorded entry. -/
theorem C4_social_first_match_witness :
    ((str "facebook", str "https://facebook.com/first") : Str × Str).2.any
      (fun c => c = '?') = false :=
  C4_social_first_match.2.1 c4anchors (str "https://biz.org")
    (str "facebook", str "https://facebook.com/first") (by decide)

/-- C5: a failure on one candidate is caught and counted, and the loop
continues; with five candidates where the third raises mid-extraction, the
final record set has the four other records in order and the error counter
is exactly one. -/
theorem C5_fault_isolation (kw : Str) (d1 d2 d4 d5 : CandidateDom)
    (b1 b2 b4 b5 : Business)
    (h1 : extractFields kw d1 = some b1) (h2 : extractFields kw d2 = some b2)
    (h4 : extractFields kw d4 = some b4) (h5 : extractFields kw d5 = some b5) :
    recordLoop kw
      [.fine d1 false, .fine d2 false, .raises, .fine d4 false, .fine d5 false] =
      ([b1, b2, b4, b5], 1) := by
  simp [recordLoop, candStep, h1, h2, h4, h5]

/-- Witness for `C5_fault_isolation` on concrete candidate panels. -/
theorem C5_fault_isolation_witness :
    recordLoop (str "Cafe")
      [.fine okDom false, .fine okDom false, .raises, .fine okDom false,
       .fine okDom false] =
      ([okBizCafe, okBizCafe, okBizCafe, okBizCafe], 1) :=
  C5_fault_isolation (str "Cafe") okDom okDom okDom okDom
    okBizCafe okBizCafe okBizCafe okBizCafe rfl rfl rfl rfl

/-- C7 as stated is false for the category field: when every category
locator fails, the field degrades to the search keyword, not to `N/A`. -/
theorem C7_counterexample :
    (extractFields (str "Coffee Shop") okDom).map Business.category =
      some (str "Coffee Shop") ∧
    str "Coffee Shop" ≠ strNA := ⟨by decide, by decide⟩

/-- C7, amended: only the name is mandatory — a record whose name chain
fails entirely is discarded — and phone, address, website, rating and
review count degrade to `N/A` when all of their locators fail, while the
category degrades to the search keyword. -/
theorem C7_field_defaults (kw : Str) (dom : CandidateDom) :
    ((∀ xp ∈ phone_xpaths, dom.elemsAt xp = []) →
       extract_phone_number dom = strNA) ∧
    ((∀ xp ∈ address_xpaths, dom.elemAt xp = none) →
       extract_address dom = strNA) ∧
    ((∀ xp ∈ website_xpaths, dom.elemAt xp = none) →
       extract_website dom = strNA) ∧
    ((∀ xp ∈ category_xpaths, dom.elemAt xp = none) →
       categoryChain kw dom = kw) ∧
    (dom.elemAt ratingXpath = none → ratingField dom = strNA) ∧
    (dom.elemAt reviewsXpath = none → reviewsField dom = strNA) ∧
    ((∀ xp ∈ name_xpaths, dom.elemAt xp = none) →
       extractFields kw dom = none) ∧
    (∀ b, extractFields kw dom = some b → b.name ≠ strNA) := by
  refine ⟨?_, ?_, ?_, ?_, ?_, ?_, ?_, ?_⟩
  · intro h
    simp only [phone_xpaths, List.mem_cons, List.mem_singleton,
      forall_eq_or_imp, forall_eq] at h
    simp [extract_phone_number, phone_xpaths, List.findSome?, h.1, h.2.1,
      h.2.2.1, h.2.2.2]
  · intro h
    simp only [address_xpaths, List.mem_cons, List.mem_singleton,
      forall_eq_or_imp, forall_eq] at h
    simp [extract_address, address_xpaths, List.findSome?, h.1, h.2.1, h.2.2]
  · intro h
    simp only [website_xpaths, List.mem_cons, List.mem_singleton,
      forall_eq_or_imp, forall_eq] at h
    simp [extract_website, website_xpaths, List.findSome?, h.1, h.2.1, h.2.2]
  · intro h
    simp only [category_xpaths, List.mem_cons, List.mem_singleton,
      forall_eq_or_imp, forall_eq] at h
    simp [categoryChain, category_xpaths, List.findSome?, h.1, h.2,
      extract_text_safe]
  · intro h
    simp [ratingField, extract_text_safe, h]
  · intro h
    simp [reviewsField, extract_text_safe_attr, h]
  · intro h
    simp only [name_xpaths, List.mem_cons, List.mem_singleton,
      forall_eq_or_imp, forall_eq] at h
    have hn : nameChain dom = strNA := by
      simp [nameChain, name_xpaths, List.findSome?, h.1, h.2.1, h.2.2,
        extract_text_safe]
    simp [extractFields, hn]
  · intro b hb
    by_cases hn : nameChain dom = strNA
    · simp [extractFields, hn] at hb
    · simp only [extractFields, if_neg hn] at hb
      rw [Option.some_inj] at hb
      rw [← hb]
      exact hn

/-- Witness for `C7_field_defaults` on the all-failing panel and on a
panel whose extraction succeeds. -/
theorem C7_field_defaults_witness :
    extract_phone_number noDom = strNA ∧ extract_address noDom = strNA ∧
    extract_website noDom = strNA ∧ categoryChain (str "Cafe") noDom = str "Cafe" ∧
    ratingField noDom = strNA ∧ reviewsField noDom = strNA ∧
    extractFields (str "Cafe") noDom = none ∧ okBizCafe.name ≠ strNA := by
  have h := C7_field_defaults (str "Cafe") noDom
  have h2 := C7_field_defaults (str "Cafe") okDom
  exact ⟨h.1 (fun _ _ => rfl), h.2.1 (fun _ _ => rfl), h.2.2.1 (fun _ _ => rfl),
    h.2.2.2.1 (fun _ _ => rfl), h.2.2.2.2.1 rfl, h.2.2.2.2.2.1 rfl,
    h.2.2.2.2.2.2.1 (fun _ _ => rfl), h2.2.2.2.2.2.2.2 okBizCafe rfl⟩

/-- Bucketing invariant of the record-extraction loop, generalized over
the accumulator, under the assumption that no progress-callback
invocation raises. -/
theorem recordLoop_sum_aux (kw : Str) (cands : List Candidate) :
    ∀ acc : List Business × Nat, cands.all cbSafe = true →
    (cands.foldl (candStep kw) acc).1.length +
      (cands.foldl (candStep kw) acc).2 =
      acc.1.length + acc.2 + cands.length := by
  induction cands with
  | nil => intro acc _; simp
  | cons c cs ih =>
    intro acc hall
    rw [List.all_cons, Bool.and_eq_true] at hall
    rw [List.foldl_cons]
    obtain ⟨bs, errs⟩ := acc
    have step : (candStep kw (bs, errs) c).1.length + (candStep kw (bs, errs) c).2 =
        bs.length + errs + 1 := by
      cases c with
      | fine dom cb =>
        have hcb : cb = false := by
          have hx := hall.1
          simp [cbSafe] at hx
          exact hx
        subst hcb
        cases hext : extractFields kw dom with
        | some b => simp [candStep, hext]; omega
        | none => simp [candStep, hext]; omega
      | stale => simp [candStep]; omega
      | raises => simp [candStep]; omega
    have tail := ih (candStep kw (bs, errs) c) hall.2
    simp only [List.length_cons]
    omega

/-- C9, amended: provided the per-record progress-callback invocation
never raises, every collected candidate is counted in exactly one bucket,
so `successfully_extracted + google_maps_errors = total_found` after the
loop.  (When the callback raises after a success was already counted, the
exception handler counts the same candidate again as an error.) -/
theorem C9_bucket_invariant (kw : Str) (cands : List Candidate)
    (h : cands.all cbSafe = true) :
    (recordLoop kw cands).1.length + (recordLoop kw cands).2 = cands.length := by
  have hx := recordLoop_sum_aux kw cands ([], 0) h
  simpa [recordLoop] using hx

/-- C9 as stated is false: a candidate whose record is appended and
counted as a success, after which the progress callback raises, is also
counted as an error, so the two buckets sum to one more than the number
of candidates. -/
theorem C9_counterexample :
    ¬ ((recordLoop (str "Cafe") [Candidate.fine okDom true]).1.length +
        (recordLoop (str "Cafe") [Candidate.fine okDom true]).2 =
        [Candidate.fine okDom true].length) := by
  decide

/-- Witness for `C9_bucket_invariant` on a mixed candidate list. -/
theorem C9_bucket_invariant_witness :
    (recordLoop (str "Cafe")
       [Candidate.fine okDom false, Candidate.stale, Candidate.raises]).1.length +
    (recordLoop (str "Cafe")
       [Candidate.fine okDom false, Candidate.stale, Candidate.raises]).2 =
    [Candidate.fine okDom false, Candidate.stale, Candidate.raises].length :=
  C9_bucket_invariant (str "Cafe")
    [Candidate.fine okDom false, Candidate.stale, Candidate.raises] (by decide)

/-- C3: when the homepage fetch succeeds, yields a usable page with zero
emails, and some contact/about candidate exists, then exactly the first
candidate is additionally fetched, with the shorter 5-second timeout, and
when that fetch returns a response the email set is replaced by (not
merged with) whatever the secondary page yields. -/
theorem C3_contact_fallback (fetch : Str → Nat → FetchResult) (u : Str)
    (st : Nat) (ct : Str) (page : Page) (c : Str) (cs : List Str)
    (h0 : ¬ (u = [] ∨ u = strNA))
    (h1 : fetch (normalizeScheme u) 8 = .success st ct page)
    (h2 : ¬ (400 ≤ st ∧ st < 600))
    (h3 : occursIn (str "text/html") (lowerStr ct) = true)
    (h4 : ¬ page.pageText.length < 100)
    (h5 : (homepageEmails page).take 3 = [])
    (h6 : contactCandidates page.anchors (normalizeScheme u) = c :: cs) :
    (scrape_website_traced fetch u 8).2 = [(normalizeScheme u, 8), (c, 5)] ∧
    ∀ st2 ct2 page2, fetch c 5 = .success st2 ct2 page2 →
      (scrape_website_traced fetch u 8).1.emails =
        (contactPageEmails page2).take 3 := by
  have hmain : scrape_website_traced fetch u 8 =
      mainSuccess fetch (normalizeScheme u) 8 page := by
    simp only [scrape_website_traced]
    rw [if_neg h0, h1]
    simp only [handleFetch, handleSuccess]
    rw [if_neg h2, h3, if_neg (show ¬ (true = false) by decide), if_neg h4]
  constructor
  · rw [hmain]
    simp only [mainSuccess]
    rw [h5, h6]
    rfl
  · intro st2 ct2 page2 hfc
    rw [hmain]
    simp only [mainSuccess]
    rw [h5, h6]
    simp [fallbackEmails, hfc, finalizeContact]

set_option maxRecDepth 100000 in
/-- Witness for `C3_contact_fallback`: a homepage with no email and a
contact link whose target page carries `mailto:hello@biz.org`. -/
theorem C3_contact_fallback_witness :
    (scrape_website_traced c3fetch (str "biz.org") 8).2 =
      [(str "https://biz.org", 8), (str "https://biz.org/contact", 5)] ∧
    (scrape_website_traced c3fetch (str "biz.org") 8).1.emails =
      [str "hello@biz.org"] := by
  have h := C3_contact_fallback c3fetch (str "biz.org") 200 (str "text/html")
    c3home (str "https://biz.org/contact") [] (by decide) rfl (by decide)
    (by decide) (by decide) rfl rfl
  exact ⟨h.1, (h.2 200 (str "text/html") c3contact rfl).trans rfl⟩

/-- The assembled result has its error set only when both components are
empty. -/
theorem finalizeContact_error (es : List Str) (soc : List (Str × Str)) :
    (finalizeContact es soc).error ≠ none →
    (finalizeContact es soc).emails = [] ∧
    (finalizeContact es soc).social_media = [] := by
  unfold finalizeContact
  by_cases h : es = [] ∧ soc = []
  · intro _
    exact ⟨h.1, h.2⟩
  · intro hc
    simp [h] at hc

/-- On every path of the enrichment fetcher, a set error field implies
that both the email list and the social map are empty. -/
theorem scrape_error_implies_empty (fetch : Str → Nat → FetchResult)
    (u : Str) (t : Nat) :
    (scrape_website_for_contact_info fetch u t).error ≠ none →
    (scrape_website_for_contact_info fetch u t).emails = [] ∧
    (scrape_website_for_contact_info fetch u t).social_media = [] := by
  simp only [scrape_website_for_contact_info, scrape_website_traced]
  split_ifs with h0
  · intro _; exact ⟨rfl, rfl⟩
  · cases hf : fetch (normalizeScheme u) t with
    | timeout => intro _; exact ⟨rfl, rfl⟩
    | connError => intro _; exact ⟨rfl, rfl⟩
    | success st ct page =>
      simp only [handleFetch, handleSuccess]
      split_ifs with hs hct hlen
      · intro _; exact ⟨rfl, rfl⟩
      · intro _; exact ⟨rfl, rfl⟩
      · intro _; exact ⟨rfl, rfl⟩
      · simp only [mainSuccess]
        split_ifs with he
        · cases hcc : contactCandidates page.anchors (normalizeScheme u) with
          | nil => exact finalizeContact_error _ _
          | cons c cs => exact finalizeContact_error _ _
        · exact finalizeContact_error _ _

/-- C8, amended: the enrichment fetcher returns a `ContactInfo` on every
path; a timeout, a connection failure, a 4xx/5xx HTTP status, a non-HTML
content type, and a near-empty page body are each captured as a short
diagnostic string in the error field, and the error field is set only
when both the email list and the social-link mapping are empty.  (A
response with a non-2xx status below 400, such as 304, is not captured:
`raise_for_status` only raises for 4xx/5xx.) -/
theorem C8_error_capture :
    (∀ (fetch : Str → Nat → FetchResult) (u : Str) (t : Nat),
       (scrape_website_for_contact_info fetch u t).error ≠ none →
       (scrape_website_for_contact_info fetch u t).emails = [] ∧
       (scrape_website_for_contact_info fetch u t).social_media = []) ∧
    (∀ (fetch : Str → Nat → FetchResult) (u : Str) (t : Nat),
       ¬ (u = [] ∨ u = strNA) → fetch (normalizeScheme u) t = .timeout →
       (scrape_website_for_contact_info fetch u t).error =
         some (str "Timeout (" ++ natStr t ++ str "s)")) ∧
    (∀ (fetch : Str → Nat → FetchResult) (u : Str) (t : Nat),
       ¬ (u = [] ∨ u = strNA) → fetch (normalizeScheme u) t = .connError →
       (scrape_website_for_contact_info fetch u t).error =
         some (str "Connection failed")) ∧
    (∀ (fetch : Str → Nat → FetchResult) (u : Str) (t st : Nat) (ct : Str)
       (page : Page),
       ¬ (u = [] ∨ u = strNA) →
       fetch (normalizeScheme u) t = .success st ct page →
       400 ≤ st → st < 600 →
       (scrape_website_for_contact_info fetch u t).error =
         some (str "HTTP " ++ natStr st)) ∧
    (∀ (fetch : Str → Nat → FetchResult) (u : Str) (t st : Nat) (ct : Str)
       (page : Page),
       ¬ (u = [] ∨ u = strNA) →
       fetch (normalizeScheme u) t = .success st ct page →
       ¬ (400 ≤ st ∧ st < 600) →
       occursIn (str "text/html") (lowerStr ct) = false →
       (scrape_website_for_contact_info fetch u t).error =
         some (str "Non-HTML: " ++ ct)) ∧
    (∀ (fetch : Str → Nat → FetchResult) (u : Str) (t st : Nat) (ct : Str)
       (page : Page),
       ¬ (u = [] ∨ u = strNA) →
       fetch (normalizeScheme u) t = .success st ct page →
       ¬ (400 ≤ st ∧ st < 600) →
       occursIn (str "text/html") (lowerStr ct) = true →
       page.pageText.length < 100 →
       (scrape_website_for_contact_info fetch u t).error =
         some (str "Empty content")) := by
  refine ⟨scrape_error_implies_empty, ?_, ?_, ?_, ?_, ?_⟩
  · intro fetch u t h0 h1
    simp only [scrape_website_for_contact_info, scrape_website_traced]
    rw [if_neg h0, h1]
    rfl
  · intro fetch u t h0 h1
    simp only [scrape_website_for_contact_info, scrape_website_traced]
    rw [if_neg h0, h1]
    rfl
  · intro fetch u t st ct page h0 h1 ha hb
    simp only [scrape_website_for_contact_info, scrape_website_traced]
    rw [if_neg h0, h1]
    simp only [handleFetch, handleSuccess]
    rw [if_pos ⟨ha, hb⟩]
  · intro fetch u t st ct page h0 h1 h2 h3
    simp only [scrape_website_for_contact_info, scrape_website_traced]
    rw [if_neg h0, h1]
    simp only [handleFetch, handleSuccess]
    rw [if_neg h2, h3, if_pos rfl]
  · intro fetch u t st ct page h0 h1 h2 h3 h4
    simp only [scrape_website_for_contact_info, scrape_website_traced]
    rw [if_neg h0, h1]
    simp only [handleFetch, handleSuccess]
    rw [if_neg h2, h3, if_neg (show ¬ (true = false) by decide), if_pos h4]

/-- Witness for `C8_error_capture`: each failure mode exercised by a
concrete oracle. -/
theorem C8_error_capture_witness :
    ((scrape_website_for_contact_info fetchAlwaysTimeout (str "biz.org") 8).emails
        = [] ∧
      (scrape_website_for_contact_info fetchAlwaysTimeout (str "biz.org")
          8).social_media = []) ∧
    (scrape_website_for_contact_info fetchAlwaysTimeout (str "biz.org") 8).error =
      some (str "Timeout (8s)") ∧
    (scrape_website_for_contact_info fetchAlwaysConnError (str "biz.org") 8).error =
      some (str "Connection failed") ∧
    (scrape_website_for_contact_info fetchAlways500 (str "biz.org") 8).error =
      some (str "HTTP 500") ∧
    (scrape_website_for_contact_info fetchAlwaysPdf (str "biz.org") 8).error =
      some (str "Non-HTML: application/pdf") ∧
    (scrape_website_for_contact_info fetchAlwaysShort (str "biz.org") 8).error =
      some (str "Empty content") := by
  refine ⟨?_, ?_, ?_, ?_, ?_, ?_⟩
  · exact C8_error_capture.1 fetchAlwaysTimeout (str "biz.org") 8 (by decide)
  · exact C8_error_capture.2.1 fetchAlwaysTimeout (str "biz.org") 8 (by decide) rfl
  · exact C8_error_capture.2.2.1 fetchAlwaysConnError (str "biz.org") 8
      (by decide) rfl
  · exact C8_error_capture.2.2.2.1 fetchAlways500 (str "biz.org") 8 500
      (str "text/html") blankPage (by decide) rfl (by decide) (by decide)
  · exact C8_error_capture.2.2.2.2.1 fetchAlwaysPdf (str "biz.org") 8 200
      (str "application/pdf") blankPage (by decide) rfl (by decide) (by decide)
  · exact C8_error_capture.2.2.2.2.2 fetchAlwaysShort (str "biz.org") 8 200
      (str "text/html") blankPage (by decide) rfl (by decide) (by decide)
      (by decide)

set_option maxRecDepth 100000 in
/-- C8 as stated is false for the clause about every non-2xx status: a
response with status 304 passes `raise_for_status`, so the page is
processed as a success and no diagnostic is recorded. -/
theorem C8_counterexample :
    (scrape_website_for_contact_info fetch304 (str "biz.org") 8).error = none ∧
    (scrape_website_for_contact_info fetch304 (str "biz.org") 8).emails =
      [str "info@realbiz.org"] := ⟨rfl, rfl⟩

/-- C6: on every exit path in which a browser session was acquired, the
`finally` block invokes `driver.quit` exactly once before returning (and
never when no session was acquired); a failure of the quit itself changes
only the log, never the returned result; and release of an
already-released session is a no-op (the collaborator contract of
section 4.1 of the spec). -/
theorem C6_cleanup_guarantee :
    (∀ env : GMEnv, env.driverInitOk = true →
       (scrape_google_maps_model env).2.1 = 1) ∧
    (∀ env : GMEnv, env.driverInitOk = false →
       (scrape_google_maps_model env).2.1 = 0) ∧
    (∀ (env : GMEnv) (b : Bool),
       (scrape_google_maps_model { env with quitRaises := b }).1 =
         (scrape_google_maps_model env).1) ∧
    (∀ s : Session, driverQuit (driverQuit s) = driverQuit s) := by
  refine ⟨?_, ?_, ?_, fun s => rfl⟩
  · intro env h
    obtain ⟨d, p, pn, lf, cs, kw, ce, q⟩ := env
    subst h
    rfl
  · intro env h
    obtain ⟨d, p, pn, lf, cs, kw, ce, q⟩ := env
    subst h
    rfl
  · intro env b
    obtain ⟨d, p, pn, lf, cs, kw, ce, q⟩ := env
    cases d <;> rfl

/-- Witness for `C6_cleanup_guarantee` on concrete environments. -/
theorem C6_cleanup_guarantee_witness :
    (scrape_google_maps_model envAcquired).2.1 = 1 ∧
    (scrape_google_maps_model envNoDriver).2.1 = 0 :=
  ⟨C6_cleanup_guarantee.1 envAcquired rfl,
   C6_cleanup_guarantee.2.1 envNoDriver rfl⟩

end LeadGen
